import Mathlib

/-!
# Verification of the RaMi chat widget (`src/static/script.js`)

A shallow embedding of the client-side chat widget: its session management,
message rendering, feedback controls, and form-submission flow, modelled as
pure state-transition functions over explicit state records.  DOM state
(transcript contents, control disabled flags, label texts, CSS classes) is
represented by record fields; the browser environment (clock, random suffix,
fetch outcome, alert dialog) is passed in or recorded explicitly.
-/

namespace RaMi

/-- The two UI languages supported by the widget (`currentLanguage` is
either the string `'en'` or `'ar'` in the script). -/
inductive Lang
  | en
  | ar
deriving DecidableEq, Repr

/-- Whitespace as recognised by JavaScript's `String.prototype.trim`:
ASCII whitespace, the no-break space, and the line/paragraph separators
(the Unicode space-separator block is represented by its common members). -/
def isJsWhitespace (c : Char) : Bool :=
  c = ' ' || c = '\t' || c = '\n' || c = '\r' ||
  c = Char.ofNat 11 || c = Char.ofNat 12 || c = Char.ofNat 160 ||
  c = Char.ofNat 8232 || c = Char.ofNat 8233 || c = Char.ofNat 65279

/-- Model of JavaScript's `String.prototype.trim`: drop whitespace from
both ends of the string. -/
def jsTrim (s : String) : String :=
  ⟨((s.data.dropWhile isJsWhitespace).reverse.dropWhile isJsWhitespace).reverse⟩

/-- The inner state of one comment box created by `createCommentBox`:
either still editable (a textarea holding the current value next to a
submit button), or its innerHTML has been replaced by the fixed
acknowledgment paragraph. -/
inductive CommentBox
  | editing (textareaValue : String)
  | acked (innerHtml : String)
deriving DecidableEq, Repr

/-- The fixed acknowledgment markup assigned to `commentBox.innerHTML`
after a non-empty comment is submitted. -/
def ackHtml : String :=
  "<p style=\"font-size: 0.9em; color: green;\"><em>Thanks for your feedback!</em></p>"

/-- Per-message feedback-control state: the `selected` CSS class on the
like / dislike / comment buttons, the list of `.comment-box` children of
the feedback area (in document order, as `querySelector` sees them), and
the log of comment texts written to the console. -/
structure FeedbackState where
  likeSelected : Bool
  dislikeSelected : Bool
  commentSelected : Bool
  commentBoxes : List CommentBox
  commentLog : List String
deriving DecidableEq, Repr

/-- Feedback state of a freshly rendered message: no button selected, no
comment box, nothing logged. -/
def initFeedback : FeedbackState :=
  { likeSelected := false
    dislikeSelected := false
    commentSelected := false
    commentBoxes := []
    commentLog := [] }

/-- UI events that can reach one message's feedback controls. -/
inductive FbEvent
  | likeClick
  | dislikeClick
  | commentClick
  | setCommentText (s : String)
  | commentSubmitClick
deriving DecidableEq, Repr

/-- One step of the feedback-control event handlers from the script:
`likeBtn`/`dislikeBtn` click handlers (toggle own `selected`, remove the
other's), the `commentBtn` click handler (remove the existing
`.comment-box` if any, else append a fresh one), typing into the open
textarea, and the comment submit-button handler (non-empty trimmed text
replaces the box content with the acknowledgment and logs the text). -/
def fbStep (st : FeedbackState) : FbEvent → FeedbackState
  | FbEvent.likeClick =>
      { st with likeSelected := !st.likeSelected, dislikeSelected := false }
  | FbEvent.dislikeClick =>
      { st with dislikeSelected := !st.dislikeSelected, likeSelected := false }
  | FbEvent.commentClick =>
      match st.commentBoxes with
      | [] =>
          { st with commentSelected := true
                    commentBoxes := [CommentBox.editing ""] }
      | _ :: rest =>
          { st with commentBoxes := rest, commentSelected := false }
  | FbEvent.setCommentText s =>
      match st.commentBoxes with
      | CommentBox.editing _ :: rest =>
          { st with commentBoxes := CommentBox.editing s :: rest }
      | _ => st
  | FbEvent.commentSubmitClick =>
      match st.commentBoxes with
      | CommentBox.editing v :: rest =>
          if jsTrim v = "" then st
          else
            { st with commentBoxes := CommentBox.acked ackHtml :: rest
                      commentLog := st.commentLog ++ [jsTrim v] }
      | _ => st

/-- Run a sequence of feedback events from a given state. -/
def fbSteps (st : FeedbackState) (evs : List FbEvent) : FeedbackState :=
  evs.foldl fbStep st

/-- One message `div` in the transcript: the string assigned to the inner
paragraph's `innerHTML`, the `div`'s class attribute, and the feedback
state when the message was rendered with `addFeedback = true`. -/
structure Message where
  text : String
  className : String
  feedback : Option FeedbackState
deriving DecidableEq, Repr

/-- The widget's whole mutable state: script variables (`currentSessionId`,
`currentLanguage`), the DOM it reads and writes (session-id span, document
language/direction, static labels, the input's value and the three
`disabled` flags, the selector's value, the transcript), and the list of
alert dialogs raised. -/
structure WidgetState where
  currentSessionId : String
  currentLanguage : Lang
  sessionIdSpanText : String
  docLang : String
  docDir : String
  clientLabelText : String
  userInputPlaceholder : String
  sendButtonText : String
  userInputValue : String
  userInputDisabled : Bool
  sendButtonDisabled : Bool
  clientSelectorDisabled : Bool
  clientSelectorValue : String
  chatBox : List Message
  alerts : List String
deriving DecidableEq, Repr

/-- `updateUIText()`: set document language/direction and the three static
texts according to `currentLanguage`. -/
def updateUIText (st : WidgetState) : WidgetState :=
  match st.currentLanguage with
  | Lang.en =>
      { st with docLang := "en", docDir := "ltr"
                clientLabelText := "Select Client:"
                userInputPlaceholder := "Ask a question..."
                sendButtonText := "Send" }
  | Lang.ar =>
      { st with docLang := "ar", docDir := "rtl"
                clientLabelText := "اختر العميل:"
                userInputPlaceholder := "اطرح سؤالاً..."
                sendButtonText := "إرسال" }

/-- `appendMessage(text, className, addFeedback)`: build a message `div`
with class `message ${className}`, assign `text` to the paragraph's
`innerHTML` verbatim (no escaping), attach fresh feedback controls when
requested, and append it at the end of the transcript.  Returns the new
state together with the handle (index) of the appended message, which the
caller may later use to remove it. -/
def appendMessage (st : WidgetState) (text className : String)
    (addFeedback : Bool) : WidgetState × Nat :=
  let msg : Message :=
    { text := text
      className := "message " ++ className
      feedback := if addFeedback then some initFeedback else none }
  ({ st with chatBox := st.chatBox ++ [msg] }, st.chatBox.length)

/-- `element.remove()` on the transcript entry with the given handle. -/
def removeMessage (st : WidgetState) (idx : Nat) : WidgetState :=
  { st with chatBox := st.chatBox.eraseIdx idx }

/-- The session identifier built from the clock and the random suffix:
`session_${Date.now()}_${Math.random().toString(36).substr(2, 9)}`. -/
def mkSessionId (now : Nat) (randSuffix : String) : String :=
  "session_" ++ Nat.repr now ++ "_" ++ randSuffix

/-- Specification-style decimal digit list of a natural number, used to
reason about the `Nat.repr` call hidden in the session identifier. -/
def decDigits (n : Nat) : List Char :=
  if _h : n < 10 then [Nat.digitChar n]
  else decDigits (n / 10) ++ [Nat.digitChar (n % 10)]
decreasing_by exact Nat.div_lt_self (by omega) (by omega)

/-- Evaluate a list of decimal digit characters back to a number. -/
def digitsToNat (l : List Char) : Nat :=
  l.foldl (fun acc c => acc * 10 + (c.toNat - 48)) 0

/-- The localized welcome message rendered by `startNewSession`. -/
def welcomeMessage : Lang → String
  | Lang.en => "Hello! I'm your Relationship Manager assistant. Please select a client and ask me a question about them."
  | Lang.ar => "مرحباً! أنا مساعد مدير العلاقات الخاص بك. يرجى اختيار عميل وطرح سؤالك عنه."

/-- `startNewSession()`: generate a fresh identifier from the environment's
clock value and random suffix, display it, clear the transcript, and append
the localized welcome message (without feedback controls). -/
def startNewSession (st : WidgetState) (now : Nat) (randSuffix : String) :
    WidgetState :=
  let sid := mkSessionId now randSuffix
  let st1 := { st with currentSessionId := sid
                       sessionIdSpanText := sid
                       chatBox := [] }
  (appendMessage st1 (welcomeMessage st1.currentLanguage) "bot-message" false).1

/-- The `languageToggle` change handler: set `currentLanguage` from the
checkbox, run `updateUIText()`, then `startNewSession()`. -/
def languageToggleChange (st : WidgetState) (checked : Bool) (now : Nat)
    (randSuffix : String) : WidgetState :=
  let st1 := { st with currentLanguage := if checked then Lang.ar else Lang.en }
  startNewSession (updateUIText st1) now randSuffix

/-- `toggleFormState(isLoading)`: set the `disabled` flag of the input,
the send button and the client selector. -/
def toggleFormState (st : WidgetState) (isLoading : Bool) : WidgetState :=
  { st with userInputDisabled := isLoading
            sendButtonDisabled := isLoading
            clientSelectorDisabled := isLoading }

/-- The localized alert raised when no client is selected. -/
def selectClientAlert : Lang → String
  | Lang.en => "Please select a client first."
  | Lang.ar => "يرجى اختيار عميل أولاً."

/-- The JSON body posted to `/chat`. -/
structure ChatRequest where
  query : String
  session_id : String
  client_id : String
  language : Lang
deriving DecidableEq, Repr

/-- Outcome of the awaited `fetch('/chat', ...)` as seen by the handler:
an ok response whose JSON body carries `answer`, a non-ok HTTP status
(which the handler turns into a thrown `Error`), or a rejected promise
carrying an error message. -/
inductive FetchResult
  | ok (answer : String)
  | notOk (status : Nat)
  | reject (message : String)
deriving DecidableEq, Repr

/-- The `error.message` reaching the `catch` block, if any: non-ok
responses throw `HTTP error! status: ${response.status}`; rejected
promises carry their own message; ok responses throw nothing. -/
def fetchErrorMessage : FetchResult → Option String
  | FetchResult.ok _ => none
  | FetchResult.notOk status => some ("HTTP error! status: " ++ Nat.repr status)
  | FetchResult.reject msg => some msg

/-- Result of the synchronous part of the submit handler, up to the
`await fetch`: a silent no-op (empty trimmed query), an alert (no client
selected), or the awaiting-response state together with the handle of the
`Thinking...` placeholder and the request body sent. -/
inductive SubmitOutcome
  | noop
  | alerted (st : WidgetState)
  | awaiting (st : WidgetState) (thinkingIdx : Nat) (req : ChatRequest)
deriving DecidableEq, Repr

/-- The submit handler before the network call: trim the query and return
silently when empty; alert and return when no client is selected;
otherwise render the user message, clear the input, disable the three
controls, render the `Thinking...` placeholder, and issue the request. -/
def submitPhase1 (st : WidgetState) : SubmitOutcome :=
  let query := jsTrim st.userInputValue
  if query = "" then SubmitOutcome.noop
  else
    let clientId := st.clientSelectorValue
    if clientId = "" then
      SubmitOutcome.alerted
        { st with alerts := st.alerts ++ [selectClientAlert st.currentLanguage] }
    else
      let st1 := (appendMessage st query "user-message" false).1
      let st2 := { st1 with userInputValue := "" }
      let st3 := toggleFormState st2 true
      let p := appendMessage st3 "Thinking..." "bot-message thinking" false
      SubmitOutcome.awaiting p.1 p.2
        { query := query
          session_id := st.currentSessionId
          client_id := clientId
          language := st.currentLanguage }

/-- The continuation of the submit handler once the fetch settles: on an
ok response remove the placeholder and render the answer with feedback
controls; in the `catch` branch remove the placeholder and render
`Sorry, an error occurred: ${error.message}` without feedback controls;
in `finally` re-enable the three controls. -/
def submitPhase2 (st : WidgetState) (thinkingIdx : Nat) (res : FetchResult) :
    WidgetState :=
  let st1 :=
    match res with
    | FetchResult.ok answer =>
        let s := removeMessage st thinkingIdx
        (appendMessage s answer "bot-message" true).1
    | FetchResult.notOk status =>
        let s := removeMessage st thinkingIdx
        (appendMessage s
          ("Sorry, an error occurred: " ++ ("HTTP error! status: " ++ Nat.repr status))
          "bot-message" false).1
    | FetchResult.reject msg =>
        let s := removeMessage st thinkingIdx
        (appendMessage s ("Sorry, an error occurred: " ++ msg)
          "bot-message" false).1
  toggleFormState st1 false

/-- The whole submit handler, with the fetch outcome supplied by the
environment.  Returns the final state and the request that was issued,
`none` when the handler returned before reaching the network call. -/
def handleSubmit (st : WidgetState) (res : FetchResult) :
    WidgetState × Option ChatRequest :=
  match submitPhase1 st with
  | SubmitOutcome.noop => (st, none)
  | SubmitOutcome.alerted st1 => (st1, none)
  | SubmitOutcome.awaiting st1 idx req => (submitPhase2 st1 idx res, some req)

/-- Character-level helper for `renderedText`: drop everything between
`<` and `>`. -/
def stripTagsAux : List Char → Bool → List Char
  | [], _ => []
  | c :: cs, inTag =>
    if inTag then
      if c = '>' then stripTagsAux cs false else stripTagsAux cs true
    else
      if c = '<' then stripTagsAux cs true else c :: stripTagsAux cs false

/-- Model of the browser collaborator: the visible text content produced
by assigning a string to `innerHTML` — markup tags are consumed by the
HTML parser and only the remaining text is displayed.  This models the
spec's rendering environment, not code of the script itself. -/
def renderedText (s : String) : String :=
  ⟨stripTagsAux s.data false⟩

/-- The transcript entry produced by `appendMessage(query, 'user-message', false)`. -/
def userMsg (q : String) : Message :=
  { text := q, className := "message user-message", feedback := none }

/-- The transient placeholder produced by
`appendMessage("Thinking...", "bot-message thinking", false)`. -/
def thinkingMsg : Message :=
  { text := "Thinking...", className := "message bot-message thinking"
    feedback := none }

/-- The transcript entry produced by
`appendMessage(data.answer, 'bot-message', true)` on a successful response. -/
def botAnswerMsg (answer : String) : Message :=
  { text := answer, className := "message bot-message"
    feedback := some initFeedback }

/-- The transcript entry produced in the `catch` branch. -/
def errorMsg (m : String) : Message :=
  { text := "Sorry, an error occurred: " ++ m, className := "message bot-message"
    feedback := none }

/-- The request body the submit handler posts for a given pre-submission
state. -/
def chatReq (st : WidgetState) : ChatRequest :=
  { query := jsTrim st.userInputValue
    session_id := st.currentSessionId
    client_id := st.clientSelectorValue
    language := st.currentLanguage }

/-- A concrete widget state (English UI, idle controls, a typed query and
a selected client) used to instantiate the theorems below. -/
def sampleState : WidgetState :=
  { currentSessionId := "session_0_abcdefghi"
    currentLanguage := Lang.en
    sessionIdSpanText := "session_0_abcdefghi"
    docLang := "en"
    docDir := "ltr"
    clientLabelText := "Select Client:"
    userInputPlaceholder := "Ask a question..."
    sendButtonText := "Send"
    userInputValue := "What is the balance?"
    userInputDisabled := false
    sendButtonDisabled := false
    clientSelectorDisabled := false
    clientSelectorValue := "C123"
    chatBox := []
    alerts := [] }

/-! ## Lemmas about `Nat.repr`, towards injectivity of `mkSessionId` -/

theorem toDigitsCore_acc (fuel : Nat) : ∀ (n : Nat) (ds : List Char),
    Nat.toDigitsCore 10 fuel n ds = Nat.toDigitsCore 10 fuel n [] ++ ds := by
  induction fuel with
  | zero => intro n ds; simp [Nat.toDigitsCore]
  | succ f ih =>
    intro n ds
    simp only [Nat.toDigitsCore]
    by_cases h : n / 10 = 0
    · simp [h]
    · simp only [h, if_false]
      rw [ih (n / 10) (Nat.digitChar (n % 10) :: ds),
          ih (n / 10) [Nat.digitChar (n % 10)]]
      simp

theorem toDigitsCore_eq_decDigits : ∀ (fuel n : Nat), n < fuel →
    Nat.toDigitsCore 10 fuel n [] = decDigits n := by
  intro fuel
  induction fuel with
  | zero => intro n h; omega
  | succ f ih =>
    intro n h
    simp only [Nat.toDigitsCore]
    by_cases h0 : n / 10 = 0
    · have hn : n < 10 := by omega
      rw [if_pos h0, decDigits, dif_pos hn, Nat.mod_eq_of_lt hn]
    · have hn : ¬ n < 10 := by omega
      rw [if_neg h0, toDigitsCore_acc, ih (n / 10) (by omega)]
      conv_rhs => rw [decDigits]
      rw [dif_neg hn]

theorem repr_data (n : Nat) : (Nat.repr n).data = decDigits n := by
  show (List.asString (Nat.toDigitsCore 10 (n + 1) n [])).data = decDigits n
  rw [toDigitsCore_eq_decDigits (n + 1) n (by omega)]
  rfl

theorem digitChar_toNat (d : Nat) (h : d < 10) :
    (Nat.digitChar d).toNat = d + 48 := by
  interval_cases d <;> rfl

theorem digitsToNat_decDigits (n : Nat) : digitsToNat (decDigits n) = n := by
  induction n using Nat.strong_induction_on with
  | _ n ih =>
    rw [decDigits]
    by_cases h : n < 10
    · rw [dif_pos h]
      simp [digitsToNat, digitChar_toNat n h]
    · rw [dif_neg h]
      have h1 : n / 10 < n := by omega
      have h2 := ih (n / 10) h1
      unfold digitsToNat at h2 ⊢
      rw [List.foldl_append, h2]
      simp only [List.foldl]
      rw [digitChar_toNat (n % 10) (by omega)]
      omega

theorem decDigits_inj {m n : Nat} (h : decDigits m = decDigits n) : m = n := by
  have := digitsToNat_decDigits m
  rw [h, digitsToNat_decDigits] at this
  omega

theorem digitChar_ne_underscore (d : Nat) (h : d < 10) :
    Nat.digitChar d ≠ '_' := by
  interval_cases d <;> decide

theorem decDigits_no_underscore (n : Nat) : '_' ∉ decDigits n := by
  induction n using Nat.strong_induction_on with
  | _ n ih =>
    rw [decDigits]
    by_cases h : n < 10
    · rw [dif_pos h]
      intro hmem
      rcases List.mem_singleton.mp hmem with h1
      exact digitChar_ne_underscore n h h1.symm
    · rw [dif_neg h]
      intro hmem
      rcases List.mem_append.mp hmem with h1 | h2
      · exact ih (n / 10) (by omega) h1
      · rcases List.mem_singleton.mp h2 with h3
        exact digitChar_ne_underscore (n % 10) (by omega) h3.symm

theorem underscore_split {d1 t1 : List Char} : ∀ {d2 t2 : List Char},
    '_' ∉ d1 → '_' ∉ d2 → d1 ++ '_' :: t1 = d2 ++ '_' :: t2 →
    d1 = d2 ∧ t1 = t2 := by
  induction d1 with
  | nil =>
    intro d2 t2 _ h2 h
    cases d2 with
    | nil => simpa using h
    | cons c cs =>
      exfalso
      simp only [List.nil_append, List.cons_append, List.cons.injEq] at h
      exact h2 (h.1 ▸ List.mem_cons_self c cs)
  | cons c cs ih =>
    intro d2 t2 h1 h2 h
    cases d2 with
    | nil =>
      exfalso
      simp only [List.nil_append, List.cons_append, List.cons.injEq] at h
      exact h1 (h.1 ▸ List.mem_cons_self c cs)
    | cons c2 cs2 =>
      simp only [List.cons_append, List.cons.injEq] at h
      obtain ⟨hc, hrest⟩ := h
      have h1' : '_' ∉ cs := fun hx => h1 (List.mem_cons_of_mem c hx)
      have h2' : '_' ∉ cs2 := fun hx => h2 (List.mem_cons_of_mem c2 hx)
      obtain ⟨e1, e2⟩ := ih h1' h2' hrest
      exact ⟨by rw [hc, e1], e2⟩

theorem mkSessionId_inj_now {n1 n2 : Nat} {r1 r2 : String}
    (h : mkSessionId n1 r1 = mkSessionId n2 r2) : n1 = n2 := by
  have hdata := congrArg String.data h
  simp only [mkSessionId, String.data_append, List.append_assoc] at hdata
  have hcancel := List.append_cancel_left hdata
  simp only [List.singleton_append] at hcancel
  have hsplit := underscore_split
    (repr_data n1 ▸ decDigits_no_underscore n1)
    (repr_data n2 ▸ decDigits_no_underscore n2) hcancel
  exact decDigits_inj (by rw [← repr_data n1, ← repr_data n2, hsplit.1])

/-! ## List helper lemmas -/

theorem eraseIdx_concat_two {α : Type} (l : List α) (a b : α) :
    (l ++ [a, b]).eraseIdx (l.length + 1) = l ++ [a] := by
  induction l with
  | nil => rfl
  | cons x xs ih =>
    show (x :: (xs ++ [a, b])).eraseIdx (xs.length + 1 + 1) = x :: (xs ++ [a])
    rw [List.eraseIdx_cons_succ, ih]

/-! ## Claim theorems -/

/-- C10: a form submission whose input text trims to the empty string is a
complete no-op: the state is returned unchanged (no alert, no message, no
disabled control, input value kept) and no network request is issued —
the query check precedes the client check, so this holds even with an
empty client selection. -/
theorem empty_query_is_noop (st : WidgetState) (res : FetchResult)
    (h : jsTrim st.userInputValue = "") :
    handleSubmit st res = (st, none) := by
  unfold handleSubmit submitPhase1
  simp [h]

/-- Witness for `empty_query_is_noop`: a whitespace-only query with no
client selected changes nothing and sends nothing. -/
theorem empty_query_is_noop_witness :
    handleSubmit
        { sampleState with userInputValue := "   ", clientSelectorValue := "" }
        (FetchResult.reject "boom")
      = ({ sampleState with userInputValue := "   ", clientSelectorValue := "" },
         none) :=
  empty_query_is_noop _ _ (by decide)

/-- C4: a submission with a non-empty query but an empty client selection
issues no network request, appends exactly one localized alert, and leaves
the transcript and every control flag unchanged. -/
theorem no_client_alerts_and_stays_idle (st : WidgetState) (res : FetchResult)
    (hq : jsTrim st.userInputValue ≠ "") (hc : st.clientSelectorValue = "") :
    handleSubmit st res =
      ({ st with alerts := st.alerts ++ [selectClientAlert st.currentLanguage] },
       none) ∧
    (handleSubmit st res).2 = none ∧
    (handleSubmit st res).1.chatBox = st.chatBox ∧
    (handleSubmit st res).1.userInputDisabled = st.userInputDisabled ∧
    (handleSubmit st res).1.sendButtonDisabled = st.sendButtonDisabled ∧
    (handleSubmit st res).1.clientSelectorDisabled = st.clientSelectorDisabled ∧
    (handleSubmit st res).1.alerts =
      st.alerts ++ [selectClientAlert st.currentLanguage] := by
  have heq : handleSubmit st res =
      ({ st with alerts := st.alerts ++ [selectClientAlert st.currentLanguage] },
       none) := by
    unfold handleSubmit submitPhase1
    simp [hq, hc]
  rw [heq]
  exact ⟨rfl, rfl, rfl, rfl, rfl, rfl, rfl⟩

/-- Witness for `no_client_alerts_and_stays_idle`: an Arabic-language state
with a typed query and no client selected gets the Arabic alert and nothing
else. -/
theorem no_client_alerts_and_stays_idle_witness :
    handleSubmit
        { sampleState with currentLanguage := Lang.ar, clientSelectorValue := "" }
        (FetchResult.ok "ignored")
      = ({ sampleState with currentLanguage := Lang.ar, clientSelectorValue := ""
                            alerts := ["يرجى اختيار عميل أولاً."] },
         none) := by
  have h := no_client_alerts_and_stays_idle
    { sampleState with currentLanguage := Lang.ar, clientSelectorValue := "" }
    (FetchResult.ok "ignored") (by decide) rfl
  simpa [sampleState, selectClientAlert] using h.1

/-- With a non-empty trimmed query and a selected client, the synchronous
part of the submit handler reaches the awaiting-response state: user
message and placeholder appended, input cleared, the three controls
disabled, and the request body assembled from the pre-submission state. -/
theorem submitPhase1_awaiting (st : WidgetState)
    (hq : jsTrim st.userInputValue ≠ "") (hc : st.clientSelectorValue ≠ "") :
    submitPhase1 st = SubmitOutcome.awaiting
      { st with chatBox := st.chatBox ++ [userMsg (jsTrim st.userInputValue), thinkingMsg]
                userInputValue := ""
                userInputDisabled := true
                sendButtonDisabled := true
                clientSelectorDisabled := true }
      (st.chatBox.length + 1) (chatReq st) := by
  unfold submitPhase1 appendMessage toggleFormState userMsg thinkingMsg chatReq
  simp [hq, hc]

/-- Full computation of the submit handler on an ok response. -/
theorem handleSubmit_ok (st : WidgetState) (answer : String)
    (hq : jsTrim st.userInputValue ≠ "") (hc : st.clientSelectorValue ≠ "") :
    handleSubmit st (FetchResult.ok answer) =
      ({ st with chatBox := st.chatBox ++ [userMsg (jsTrim st.userInputValue),
                                           botAnswerMsg answer]
                 userInputValue := ""
                 userInputDisabled := false
                 sendButtonDisabled := false
                 clientSelectorDisabled := false },
       some (chatReq st)) := by
  unfold handleSubmit
  rw [submitPhase1_awaiting st hq hc]
  unfold submitPhase2 removeMessage appendMessage toggleFormState botAnswerMsg
  simp [eraseIdx_concat_two]

/-- Full computation of the submit handler on a failed fetch. -/
theorem handleSubmit_failure (st : WidgetState) (res : FetchResult) (m : String)
    (hq : jsTrim st.userInputValue ≠ "") (hc : st.clientSelectorValue ≠ "")
    (hm : fetchErrorMessage res = some m) :
    handleSubmit st res =
      ({ st with chatBox := st.chatBox ++ [userMsg (jsTrim st.userInputValue),
                                           errorMsg m]
                 userInputValue := ""
                 userInputDisabled := false
                 sendButtonDisabled := false
                 clientSelectorDisabled := false },
       some (chatReq st)) := by
  unfold handleSubmit
  rw [submitPhase1_awaiting st hq hc]
  cases res with
  | ok answer => exact absurd hm (by simp [fetchErrorMessage])
  | notOk status =>
    have hm2 : m = "HTTP error! status: " ++ Nat.repr status := by
      simpa [fetchErrorMessage] using hm.symm
    subst hm2
    unfold submitPhase2 removeMessage appendMessage toggleFormState errorMsg
    simp [eraseIdx_concat_two]
  | reject msg =>
    have hm2 : m = msg := by simpa [fetchErrorMessage] using hm.symm
    subst hm2
    unfold submitPhase2 removeMessage appendMessage toggleFormState errorMsg
    simp [eraseIdx_concat_two]

/-- C1: a submission with a non-empty trimmed query and a selected client
enters the awaiting-response state (the three controls disabled, the user
message and the `Thinking...` placeholder appended, one request issued);
on an ok response the placeholder is removed, the response body's answer
is rendered as a bot message carrying fresh feedback controls, and the
input field, the send button and the client selector are all re-enabled. -/
theorem success_renders_answer_and_reenables (st : WidgetState)
    (answer : String)
    (hq : jsTrim st.userInputValue ≠ "") (hc : st.clientSelectorValue ≠ "") :
    ∃ st1,
      submitPhase1 st = SubmitOutcome.awaiting st1 (st.chatBox.length + 1)
        (chatReq st) ∧
      st1.userInputDisabled = true ∧
      st1.sendButtonDisabled = true ∧
      st1.clientSelectorDisabled = true ∧
      st1.chatBox =
        st.chatBox ++ [userMsg (jsTrim st.userInputValue), thinkingMsg] ∧
      (handleSubmit st (FetchResult.ok answer)).2 = some (chatReq st) ∧
      (handleSubmit st (FetchResult.ok answer)).1.chatBox =
        st.chatBox ++ [userMsg (jsTrim st.userInputValue), botAnswerMsg answer] ∧
      (botAnswerMsg answer).text = answer ∧
      (botAnswerMsg answer).feedback = some initFeedback ∧
      (handleSubmit st (FetchResult.ok answer)).1.userInputDisabled = false ∧
      (handleSubmit st (FetchResult.ok answer)).1.sendButtonDisabled = false ∧
      (handleSubmit st (FetchResult.ok answer)).1.clientSelectorDisabled = false := by
  refine ⟨_, submitPhase1_awaiting st hq hc, rfl, rfl, rfl, rfl, ?_, ?_, rfl, rfl,
    ?_, ?_, ?_⟩ <;> rw [handleSubmit_ok st answer hq hc]

/-- Witness for `success_renders_answer_and_reenables` at the sample state
and the mocked response of the specification's end-to-end scenario. -/
theorem success_renders_answer_and_reenables_witness :
    ∃ st1,
      submitPhase1 sampleState = SubmitOutcome.awaiting st1
        (sampleState.chatBox.length + 1) (chatReq sampleState) ∧
      st1.userInputDisabled = true ∧
      st1.sendButtonDisabled = true ∧
      st1.clientSelectorDisabled = true ∧
      st1.chatBox = sampleState.chatBox ++
        [userMsg (jsTrim sampleState.userInputValue), thinkingMsg] ∧
      (handleSubmit sampleState (FetchResult.ok "Balance: $500")).2 =
        some (chatReq sampleState) ∧
      (handleSubmit sampleState (FetchResult.ok "Balance: $500")).1.chatBox =
        sampleState.chatBox ++ [userMsg (jsTrim sampleState.userInputValue),
                                botAnswerMsg "Balance: $500"] ∧
      (botAnswerMsg "Balance: $500").text = "Balance: $500" ∧
      (botAnswerMsg "Balance: $500").feedback = some initFeedback ∧
      (handleSubmit sampleState (FetchResult.ok "Balance: $500")).1.userInputDisabled = false ∧
      (handleSubmit sampleState (FetchResult.ok "Balance: $500")).1.sendButtonDisabled = false ∧
      (handleSubmit sampleState (FetchResult.ok "Balance: $500")).1.clientSelectorDisabled = false :=
  success_renders_answer_and_reenables sampleState "Balance: $500"
    (by decide) (by decide)

/-- C2 counterexample: in an Arabic-language state, a 500 status and a
rejected fetch produce two different user-visible transcript texts (so the
failure causes do not collapse into one generic message), and the Arabic
and English states render the identical error text (so the message is not
localized). -/
theorem failure_message_counterexample :
    ((handleSubmit { sampleState with currentLanguage := Lang.ar }
        (FetchResult.notOk 500)).1.chatBox.map Message.text ≠
      (handleSubmit { sampleState with currentLanguage := Lang.ar }
        (FetchResult.reject "Failed to fetch")).1.chatBox.map Message.text) ∧
    ((handleSubmit { sampleState with currentLanguage := Lang.ar }
        (FetchResult.notOk 500)).1.chatBox.map Message.text =
      (handleSubmit sampleState (FetchResult.notOk 500)).1.chatBox.map
        Message.text) := by
  decide

/-- C2 (amended): a submission that enters the awaiting-response state and
whose request fails has the placeholder removed and an error message
rendered with no feedback controls — the fixed English text
`Sorry, an error occurred: ` followed by the cause-specific error message,
independent of the active language — and the three controls re-enabled. -/
theorem failure_renders_error_and_reenables (st : WidgetState)
    (res : FetchResult) (m : String)
    (hq : jsTrim st.userInputValue ≠ "") (hc : st.clientSelectorValue ≠ "")
    (hm : fetchErrorMessage res = some m) :
    ∃ st1,
      submitPhase1 st = SubmitOutcome.awaiting st1 (st.chatBox.length + 1)
        (chatReq st) ∧
      st1.chatBox =
        st.chatBox ++ [userMsg (jsTrim st.userInputValue), thinkingMsg] ∧
      (handleSubmit st res).2 = some (chatReq st) ∧
      (handleSubmit st res).1.chatBox =
        st.chatBox ++ [userMsg (jsTrim st.userInputValue), errorMsg m] ∧
      (errorMsg m).text = "Sorry, an error occurred: " ++ m ∧
      (errorMsg m).feedback = none ∧
      (handleSubmit st res).1.userInputDisabled = false ∧
      (handleSubmit st res).1.sendButtonDisabled = false ∧
      (handleSubmit st res).1.clientSelectorDisabled = false ∧
      (∀ l : Lang,
        (handleSubmit { st with currentLanguage := l } res).1.chatBox =
          st.chatBox ++ [userMsg (jsTrim st.userInputValue), errorMsg m]) := by
  refine ⟨_, submitPhase1_awaiting st hq hc, rfl, ?_, ?_, rfl, rfl, ?_, ?_, ?_, ?_⟩
  · rw [handleSubmit_failure st res m hq hc hm]
  · rw [handleSubmit_failure st res m hq hc hm]
  · rw [handleSubmit_failure st res m hq hc hm]
  · rw [handleSubmit_failure st res m hq hc hm]
  · rw [handleSubmit_failure st res m hq hc hm]
  · intro l
    rw [handleSubmit_failure { st with currentLanguage := l } res m hq hc hm]

/-- Witness for `failure_renders_error_and_reenables` at the sample state
with a rejected fetch. -/
theorem failure_renders_error_and_reenables_witness :
    ∃ st1,
      submitPhase1 sampleState = SubmitOutcome.awaiting st1
        (sampleState.chatBox.length + 1) (chatReq sampleState) ∧
      st1.chatBox = sampleState.chatBox ++
        [userMsg (jsTrim sampleState.userInputValue), thinkingMsg] ∧
      (handleSubmit sampleState (FetchResult.reject "Failed to fetch")).2 =
        some (chatReq sampleState) ∧
      (handleSubmit sampleState (FetchResult.reject "Failed to fetch")).1.chatBox =
        sampleState.chatBox ++ [userMsg (jsTrim sampleState.userInputValue),
                                errorMsg "Failed to fetch"] ∧
      (errorMsg "Failed to fetch").text =
        "Sorry, an error occurred: " ++ "Failed to fetch" ∧
      (errorMsg "Failed to fetch").feedback = none ∧
      (handleSubmit sampleState (FetchResult.reject "Failed to fetch")).1.userInputDisabled = false ∧
      (handleSubmit sampleState (FetchResult.reject "Failed to fetch")).1.sendButtonDisabled = false ∧
      (handleSubmit sampleState (FetchResult.reject "Failed to fetch")).1.clientSelectorDisabled = false ∧
      (∀ l : Lang,
        (handleSubmit { sampleState with currentLanguage := l }
            (FetchResult.reject "Failed to fetch")).1.chatBox =
          sampleState.chatBox ++ [userMsg (jsTrim sampleState.userInputValue),
                                  errorMsg "Failed to fetch"]) :=
  failure_renders_error_and_reenables sampleState
    (FetchResult.reject "Failed to fetch") "Failed to fetch"
    (by decide) (by decide) rfl

/-- Every single feedback event preserves the mutual exclusion of the
like and dislike selections. -/
theorem fbStep_preserves_sentiment (s : FeedbackState) (e : FbEvent)
    (h : s.likeSelected = false ∨ s.dislikeSelected = false) :
    (fbStep s e).likeSelected = false ∨ (fbStep s e).dislikeSelected = false := by
  cases e with
  | likeClick => right; rfl
  | dislikeClick => left; rfl
  | commentClick =>
    cases hb : s.commentBoxes with
    | nil => simpa [fbStep, hb] using h
    | cons b rest => simpa [fbStep, hb] using h
  | setCommentText str =>
    cases hb : s.commentBoxes with
    | nil => simpa [fbStep, hb] using h
    | cons b rest => cases b <;> simpa [fbStep, hb] using h
  | commentSubmitClick =>
    cases hb : s.commentBoxes with
    | nil => simpa [fbStep, hb] using h
    | cons b rest =>
      cases b with
      | editing v =>
        by_cases hv : jsTrim v = "" <;> simpa [fbStep, hb, hv] using h
      | acked a => simpa [fbStep, hb] using h

/-- Along every event sequence from a freshly rendered message, at most
one of the like/dislike selections is set. -/
theorem fbSteps_sentiment (evs : List FbEvent) :
    (fbSteps initFeedback evs).likeSelected = false ∨
    (fbSteps initFeedback evs).dislikeSelected = false := by
  suffices h : ∀ s : FeedbackState,
      (s.likeSelected = false ∨ s.dislikeSelected = false) →
      (fbSteps s evs).likeSelected = false ∨
      (fbSteps s evs).dislikeSelected = false from
    h initFeedback (Or.inl rfl)
  induction evs with
  | nil => intro s hs; exact hs
  | cons e rest ih =>
    intro s hs
    exact ih (fbStep s e) (fbStep_preserves_sentiment s e hs)

/-- Every single feedback event keeps the number of comment boxes at or
below one. -/
theorem fbStep_boxes_le_one (s : FeedbackState) (e : FbEvent)
    (h : s.commentBoxes.length ≤ 1) :
    (fbStep s e).commentBoxes.length ≤ 1 := by
  cases e with
  | likeClick => exact h
  | dislikeClick => exact h
  | commentClick =>
    cases hb : s.commentBoxes with
    | nil => simp [fbStep, hb]
    | cons b rest =>
      rw [hb] at h
      simp only [List.length_cons] at h
      simp [fbStep, hb]
      omega
  | setCommentText str =>
    cases hb : s.commentBoxes with
    | nil => simp [fbStep, hb]
    | cons b rest =>
      rw [hb] at h
      cases b <;> simpa [fbStep, hb] using h
  | commentSubmitClick =>
    cases hb : s.commentBoxes with
    | nil => simp [fbStep, hb]
    | cons b rest =>
      rw [hb] at h
      cases b with
      | editing v =>
        by_cases hv : jsTrim v = "" <;> simpa [fbStep, hb, hv] using h
      | acked a => simpa [fbStep, hb] using h

/-- Along every event sequence from a freshly rendered message, at most
one comment box exists in the feedback area. -/
theorem fbSteps_boxes_le_one (evs : List FbEvent) :
    (fbSteps initFeedback evs).commentBoxes.length ≤ 1 := by
  suffices h : ∀ s : FeedbackState, s.commentBoxes.length ≤ 1 →
      (fbSteps s evs).commentBoxes.length ≤ 1 from
    h initFeedback (by simp [initFeedback])
  induction evs with
  | nil => intro s hs; exact hs
  | cons e rest ih =>
    intro s hs
    exact ih (fbStep s e) (fbStep_boxes_le_one s e hs)

/-- C3: in every state reachable by clicks on a message's feedback
controls, at most one of like/dislike is selected; clicking an unselected
sentiment control selects it and clears the other; clicking an
already-selected one unselects it without affecting the other; like then
dislike leaves exactly dislike selected; dislike twice leaves neither. -/
theorem sentiment_mutex_and_toggling (evs : List FbEvent) :
    ¬((fbSteps initFeedback evs).likeSelected = true ∧
      (fbSteps initFeedback evs).dislikeSelected = true) ∧
    ((fbSteps initFeedback evs).likeSelected = false →
      (fbStep (fbSteps initFeedback evs) FbEvent.likeClick).likeSelected = true ∧
      (fbStep (fbSteps initFeedback evs) FbEvent.likeClick).dislikeSelected = false) ∧
    ((fbSteps initFeedback evs).dislikeSelected = false →
      (fbStep (fbSteps initFeedback evs) FbEvent.dislikeClick).dislikeSelected = true ∧
      (fbStep (fbSteps initFeedback evs) FbEvent.dislikeClick).likeSelected = false) ∧
    ((fbSteps initFeedback evs).likeSelected = true →
      (fbStep (fbSteps initFeedback evs) FbEvent.likeClick).likeSelected = false ∧
      (fbStep (fbSteps initFeedback evs) FbEvent.likeClick).dislikeSelected =
        (fbSteps initFeedback evs).dislikeSelected) ∧
    ((fbSteps initFeedback evs).dislikeSelected = true →
      (fbStep (fbSteps initFeedback evs) FbEvent.dislikeClick).dislikeSelected = false ∧
      (fbStep (fbSteps initFeedback evs) FbEvent.dislikeClick).likeSelected =
        (fbSteps initFeedback evs).likeSelected) ∧
    (fbSteps initFeedback [FbEvent.likeClick, FbEvent.dislikeClick]).likeSelected
      = false ∧
    (fbSteps initFeedback [FbEvent.likeClick, FbEvent.dislikeClick]).dislikeSelected
      = true ∧
    (fbSteps initFeedback [FbEvent.dislikeClick, FbEvent.dislikeClick]).likeSelected
      = false ∧
    (fbSteps initFeedback [FbEvent.dislikeClick, FbEvent.dislikeClick]).dislikeSelected
      = false := by
  have hinv := fbSteps_sentiment evs
  set s := fbSteps initFeedback evs with hs
  refine ⟨?_, ?_, ?_, ?_, ?_, by decide, by decide, by decide, by decide⟩
  · rcases hinv with h | h <;> simp [h]
  · intro hl
    simp [fbStep, hl]
  · intro hd
    simp [fbStep, hd]
  · intro hl
    have hd : s.dislikeSelected = false := by
      rcases hinv with h | h
      · rw [hl] at h; cases h
      · exact h
    simp [fbStep, hl, hd]
  · intro hd
    have hl : s.likeSelected = false := by
      rcases hinv with h | h
      · exact h
      · rw [hd] at h; cases h
    simp [fbStep, hd, hl]

/-- C8: in every reachable feedback state at most one comment box exists;
clicking the comment control with a box present removes it and unselects
the control; clicking with no box present creates exactly one and selects
the control; opening then closing leaves no box and the control
unselected. -/
theorem comment_box_toggle (evs : List FbEvent) :
    (fbSteps initFeedback evs).commentBoxes.length ≤ 1 ∧
    ((fbSteps initFeedback evs).commentBoxes ≠ [] →
      (fbStep (fbSteps initFeedback evs) FbEvent.commentClick).commentBoxes = [] ∧
      (fbStep (fbSteps initFeedback evs) FbEvent.commentClick).commentSelected
        = false) ∧
    ((fbSteps initFeedback evs).commentBoxes = [] →
      (fbStep (fbSteps initFeedback evs) FbEvent.commentClick).commentBoxes =
        [CommentBox.editing ""] ∧
      (fbStep (fbSteps initFeedback evs) FbEvent.commentClick).commentSelected
        = true) ∧
    ((fbSteps initFeedback evs).commentBoxes = [] →
      (fbSteps (fbSteps initFeedback evs)
          [FbEvent.commentClick, FbEvent.commentClick]).commentBoxes = [] ∧
      (fbSteps (fbSteps initFeedback evs)
          [FbEvent.commentClick, FbEvent.commentClick]).commentSelected = false) := by
  have hinv := fbSteps_boxes_le_one evs
  set s := fbSteps initFeedback evs with hs
  refine ⟨hinv, ?_, ?_, ?_⟩
  · intro hne
    rcases hb : s.commentBoxes with _ | ⟨b, rest⟩
    · exact absurd hb hne
    · have hrest : rest = [] := by
        rw [hb] at hinv
        simp only [List.length_cons] at hinv
        exact List.length_eq_zero.mp (by omega)
      subst hrest
      simp [fbStep, hb]
  · intro hb
    simp [fbStep, hb]
  · intro hb
    simp [fbSteps, fbStep, hb]

/-- C9: submitting the comment box replaces its content with the fixed
acknowledgment and logs the trimmed text exactly when the text is
non-empty after trimming; an empty or whitespace-only submission leaves
the whole feedback state (box included) unchanged. -/
theorem comment_submit_ack_iff_nonempty (s : FeedbackState) (v : String)
    (rest : List CommentBox)
    (h : s.commentBoxes = CommentBox.editing v :: rest) :
    (jsTrim v = "" → fbStep s FbEvent.commentSubmitClick = s) ∧
    (jsTrim v ≠ "" →
      fbStep s FbEvent.commentSubmitClick =
        { s with commentBoxes := CommentBox.acked ackHtml :: rest
                 commentLog := s.commentLog ++ [jsTrim v] }) := by
  constructor <;> intro hv <;> simp [fbStep, h, hv]

/-- Witness for `comment_submit_ack_iff_nonempty` on a box holding a
whitespace-only comment: submission leaves the state unchanged. -/
theorem comment_submit_ack_iff_nonempty_witness :
    (jsTrim "   " = "" →
      fbStep { initFeedback with commentBoxes := [CommentBox.editing "   "] }
        FbEvent.commentSubmitClick =
        { initFeedback with commentBoxes := [CommentBox.editing "   "] }) ∧
    (jsTrim "   " ≠ "" →
      fbStep { initFeedback with commentBoxes := [CommentBox.editing "   "] }
        FbEvent.commentSubmitClick =
        { { initFeedback with commentBoxes := [CommentBox.editing "   "] } with
            commentBoxes := CommentBox.acked ackHtml :: []
            commentLog := { initFeedback with
              commentBoxes := [CommentBox.editing "   "] }.commentLog ++
                [jsTrim "   "] }) :=
  comment_submit_ack_iff_nonempty
    { initFeedback with commentBoxes := [CommentBox.editing "   "] } "   " [] rfl

/-- C5: `appendMessage` stores the message text verbatim in the markup
slot (no escaping of server responses or user input), and the rendering
of markup input differs from the literal input string: the appended text
`<b>hi</b>` displays as `hi`. -/
theorem message_text_inserted_as_markup (st : WidgetState) (className : String)
    (addFeedback : Bool) :
    (∀ text, ((appendMessage st text className addFeedback).1.chatBox).getLast?.map
        Message.text = some text) ∧
    ("<b>hi</b>".data.contains '<') = true ∧
    renderedText "<b>hi</b>" = "hi" ∧
    renderedText "<b>hi</b>" ≠ "<b>hi</b>" ∧
    ((appendMessage st "<b>hi</b>" className addFeedback).1.chatBox).getLast?.map
        (fun m => renderedText m.text) = some "hi" := by
  refine ⟨?_, by decide, by decide, by decide, ?_⟩
  · intro text
    simp [appendMessage]
  · simp [appendMessage]
    decide

/-- C6: `startNewSession` leaves the transcript containing exactly one
message — the welcome localized to the current language — displays the
fresh identifier, touches no disabled flag, and two generations with
distinct clock readings produce distinct session identifiers. -/
theorem new_session_fresh_and_single_welcome (st : WidgetState)
    (now now2 : Nat) (r r2 : String) (hnow : now ≠ now2) :
    (startNewSession st now r).chatBox =
      [{ text := welcomeMessage st.currentLanguage
         className := "message bot-message", feedback := none }] ∧
    (startNewSession st now r).currentSessionId = mkSessionId now r ∧
    (startNewSession st now r).sessionIdSpanText = mkSessionId now r ∧
    (startNewSession st now r).userInputDisabled = st.userInputDisabled ∧
    (startNewSession st now r).sendButtonDisabled = st.sendButtonDisabled ∧
    (startNewSession st now r).clientSelectorDisabled = st.clientSelectorDisabled ∧
    mkSessionId now r ≠ mkSessionId now2 r2 := by
  refine ⟨?_, rfl, rfl, rfl, rfl, rfl, fun h => hnow (mkSessionId_inj_now h)⟩
  simp [startNewSession, appendMessage]

/-- Witness for `new_session_fresh_and_single_welcome` at clock readings
1 and 2 with equal random suffixes. -/
theorem new_session_fresh_and_single_welcome_witness :
    (startNewSession sampleState 1 "abc").chatBox =
      [{ text := welcomeMessage sampleState.currentLanguage
         className := "message bot-message", feedback := none }] ∧
    (startNewSession sampleState 1 "abc").currentSessionId =
      mkSessionId 1 "abc" ∧
    (startNewSession sampleState 1 "abc").sessionIdSpanText =
      mkSessionId 1 "abc" ∧
    (startNewSession sampleState 1 "abc").userInputDisabled =
      sampleState.userInputDisabled ∧
    (startNewSession sampleState 1 "abc").sendButtonDisabled =
      sampleState.sendButtonDisabled ∧
    (startNewSession sampleState 1 "abc").clientSelectorDisabled =
      sampleState.clientSelectorDisabled ∧
    mkSessionId 1 "abc" ≠ mkSessionId 2 "abc" :=
  new_session_fresh_and_single_welcome sampleState 1 2 "abc" "abc" (by decide)

/-- C7: the language-toggle handler switches the active language, updates
the static labels, the input placeholder and the text direction (ltr for
English, rtl for Arabic), and unconditionally starts a new session, so the
transcript afterwards holds exactly the welcome message in the new
language under a fresh session identifier. -/
theorem language_toggle_updates_ui_and_resets (st : WidgetState)
    (checked : Bool) (now : Nat) (r : String) :
    (languageToggleChange st checked now r).currentLanguage =
      (if checked then Lang.ar else Lang.en) ∧
    (languageToggleChange st checked now r).docLang =
      (if checked then "ar" else "en") ∧
    (languageToggleChange st checked now r).docDir =
      (if checked then "rtl" else "ltr") ∧
    (languageToggleChange st checked now r).clientLabelText =
      (if checked then "اختر العميل:" else "Select Client:") ∧
    (languageToggleChange st checked now r).userInputPlaceholder =
      (if checked then "اطرح سؤالاً..." else "Ask a question...") ∧
    (languageToggleChange st checked now r).sendButtonText =
      (if checked then "إرسال" else "Send") ∧
    (languageToggleChange st checked now r).chatBox =
      [{ text := welcomeMessage (if checked then Lang.ar else Lang.en)
         className := "message bot-message", feedback := none }] ∧
    (languageToggleChange st checked now r).currentSessionId =
      mkSessionId now r := by
  cases checked <;>
    simp [languageToggleChange, updateUIText, startNewSession, appendMessage,
      welcomeMessage]

end RaMi
